import Mathlib

/-!
Verification of the foodiegram batch recipe-extraction pipeline.

Shallow embedding of the reconciliation core of the repository:
- `src/foodiegram/master_recipe_extractor.py` (`MasterRecipeExtractor`, its local `Recipe` model),
- `src/foodiegram/recipe_extractor.py` (`RecipeExtractor`, records of type `foodiegram.types.Recipe`),
- `src/v1.5/recipe_analyzer.py` (`RecipeExtractor`),
- `src/v1.5/analyzer.py` (`EnhancedRecipeAnalyzer._poll_batch_completion`),
- `src/foodiegram/analyzer.py` (`RecipeAnalyzer.analyze_posts_batch`),
- `src/foodiegram/cache_manager.py` (`CacheManager.save_collection`) and
  `src/foodiegram/types.py` (`Collection.append_posts`).

Modelling conventions:
- A parsed JSON document is a `Jval`.  `Jval.obj` models a Python dict as produced
  by `json.loads` (keys unique, duplicate keys already collapsed by the parser).
- `json.loads` itself is third-party library code; the embedding is parametric in a
  function `loads : String → Option Jval` (`none` models a raised `JSONDecodeError`).
- A downloaded results file is `Option (List String)`: `none` models a missing file,
  `some lines` models the `splitlines()` of its content.
- Python exceptions that escape a function are modelled with `Except String`;
  functions whose bodies catch every exception are total Lean functions.
- Pydantic validation of the flat record models (all fields of type `str`,
  `list[str]`, `int`, or optional `str`) is modelled field by field; pydantic v2
  lax mode accepts only `str` for `str` fields, arrays of `str` for `list[str]`
  fields, and ints or integral strings for `int` fields.
-/

/-- Model of a parsed JSON value (the result of a successful `json.loads`). -/
inductive Jval where
  | null
  | bool (b : Bool)
  | num (n : Int)
  | str (s : String)
  | arr (elems : List Jval)
  | obj (fields : List (String × Jval))

/-- Python `d[k]` on a parsed JSON value: succeeds only on an object that has the
key.  `none` models the raised `KeyError`/`TypeError`. -/
def Jval.get? : Jval → String → Option Jval
  | .obj fields, k => (fields.find? (fun e => e.1 == k)).map (fun e => e.2)
  | _, _ => none

/-- Python `j[i]` with an integer index: succeeds only on an array that is long
enough. -/
def Jval.idx? : Jval → Nat → Option Jval
  | .arr xs, i => xs.get? i
  | _, _ => none

/-- Extract a JSON string (pydantic `str` field validation: strings only). -/
def Jval.asStr? : Jval → Option String
  | .str s => some s
  | _ => none

/-- Extract a list of strings from a list of JSON values; fails on any non-string
element (pydantic `list[str]` element validation). -/
def allStrs : List Jval → Option (List String)
  | [] => some []
  | .str s :: rest => (allStrs rest).map (fun l => s :: l)
  | _ => none

/-- Pydantic `list[str]` field validation: a JSON array of strings. -/
def Jval.asStrList? : Jval → Option (List String)
  | .arr xs => allStrs xs
  | _ => none

/-- Digit accumulator for `pyInt?`; fails on the first non-digit character. -/
def pyNatAux : List Char → Nat → Option Nat
  | [], acc => some acc
  | c :: rest, acc =>
    if c.isDigit then pyNatAux rest (acc * 10 + (c.toNat - 48)) else none

/-- Model of Python `int(str)` (equivalently pydantic lax `int`-from-string):
an optional minus sign followed by at least one ASCII digit.  `none` models a
raised `ValueError`/`ValidationError`. -/
def pyInt? (s : String) : Option Int :=
  match s.toList with
  | [] => none
  | '-' :: rest =>
    if rest.isEmpty then none
    else (pyNatAux rest 0).map (fun n => -(n : Int))
  | cs => (pyNatAux cs 0).map (fun n => (n : Int))

/-- Pydantic `int` field validation in lax mode: a JSON integer, or a string that
parses as an integer. -/
def Jval.asInt? : Jval → Option Int
  | .num n => some n
  | .str s => pyInt? s
  | _ => none

/-- Field read + `str` validation on a JSON object. -/
def getStr (j : Jval) (k : String) : Option String :=
  (j.get? k).bind Jval.asStr?

/-- Field read + `list[str]` validation on a JSON object. -/
def getStrList (j : Jval) (k : String) : Option (List String) :=
  (j.get? k).bind Jval.asStrList?

/-- The fields of an `instagrapi.types.Media` post used by the pipeline. -/
structure Media where
  id : String
  pk : String
  code : String
  caption_text : String
  thumbnail_url : Option String
  title : String

/-- Python `not s.strip()`: the string is empty or all whitespace. -/
def pyBlank (s : String) : Bool :=
  s.toList.all (fun c => c.isWhitespace)

/-- The `Recipe` pydantic model local to `master_recipe_extractor.py`
(`model_config = ConfigDict(extra="forbid")`, all 26 fields required). -/
structure MRecipe where
  title : String
  ingredients : List String
  instructions : List String
  cuisine_type : String
  difficulty : String
  meal_type : String
  proteins : List String
  vegetables : List String
  grains_starches : List String
  herbs_spices : List String
  cooking_methods : List String
  equipment : List String
  prep_time : String
  cook_time : String
  total_time : String
  servings : String
  temperature : String
  texture : List String
  flavor_profile : List String
  dietary_tags : List String
  health_tags : List String
  season : List String
  occasion : List String
  skill_level : String
  style_tags : List String
  prep_style : List String

/-- The field names of `master_recipe_extractor.Recipe`; with `extra="forbid"`
any other key makes validation fail. -/
def mRecipeKeys : List String :=
  ["title", "ingredients", "instructions", "cuisine_type", "difficulty",
   "meal_type", "proteins", "vegetables", "grains_starches", "herbs_spices",
   "cooking_methods", "equipment", "prep_time", "cook_time", "total_time",
   "servings", "temperature", "texture", "flavor_profile", "dietary_tags",
   "health_tags", "season", "occasion", "skill_level", "style_tags",
   "prep_style"]

/-!
The 26 fields of the flat recipe models are validated group by group, following
the commented field blocks of the pydantic models ("Core recipe data", "Primary
classifications", "Detailed ingredient breakdown", "Cooking details", "Time and
serving", "Experience tags", "Dietary and lifestyle", "Context and occasion",
"Special characteristics").  Each reader takes the `str`-field accessor `gs` and
the `list[str]`-field accessor `gl` of the underlying mapping, so the same
readers serve both `Recipe(**recipe_data)` on a JSON object and the
keyword-argument constructions in `recipe_extractor.py` / `analyzer.py`.
-/

/-- Core recipe data: `title`, `ingredients`, `instructions`. -/
def readCore (gs : String → Option String) (gl : String → Option (List String)) :
    Option (String × List String × List String) := do
  let title ← gs "title"
  let ingredients ← gl "ingredients"
  let instructions ← gl "instructions"
  some (title, ingredients, instructions)

/-- Primary classifications: `cuisine_type`, `difficulty`, `meal_type`. -/
def readClassif (gs : String → Option String) :
    Option (String × String × String) := do
  let cuisine_type ← gs "cuisine_type"
  let difficulty ← gs "difficulty"
  let meal_type ← gs "meal_type"
  some (cuisine_type, difficulty, meal_type)

/-- Ingredient breakdown: `proteins`, `vegetables`, `grains_starches`,
`herbs_spices`. -/
def readIngred (gl : String → Option (List String)) :
    Option (List String × List String × List String × List String) := do
  let proteins ← gl "proteins"
  let vegetables ← gl "vegetables"
  let grains_starches ← gl "grains_starches"
  let herbs_spices ← gl "herbs_spices"
  some (proteins, vegetables, grains_starches, herbs_spices)

/-- Cooking details: `cooking_methods`, `equipment`. -/
def readCooking (gl : String → Option (List String)) :
    Option (List String × List String) := do
  let cooking_methods ← gl "cooking_methods"
  let equipment ← gl "equipment"
  some (cooking_methods, equipment)

/-- Time and serving: `prep_time`, `cook_time`, `total_time`, `servings`. -/
def readTiming (gs : String → Option String) :
    Option (String × String × String × String) := do
  let prep_time ← gs "prep_time"
  let cook_time ← gs "cook_time"
  let total_time ← gs "total_time"
  let servings ← gs "servings"
  some (prep_time, cook_time, total_time, servings)

/-- Experience tags: `temperature`, `texture`, `flavor_profile`. -/
def readExper (gs : String → Option String) (gl : String → Option (List String)) :
    Option (String × List String × List String) := do
  let temperature ← gs "temperature"
  let texture ← gl "texture"
  let flavor_profile ← gl "flavor_profile"
  some (temperature, texture, flavor_profile)

/-- Dietary and lifestyle: `dietary_tags`, `health_tags`. -/
def readDietary (gl : String → Option (List String)) :
    Option (List String × List String) := do
  let dietary_tags ← gl "dietary_tags"
  let health_tags ← gl "health_tags"
  some (dietary_tags, health_tags)

/-- Context and occasion: `season`, `occasion`, `skill_level`. -/
def readContext (gs : String → Option String) (gl : String → Option (List String)) :
    Option (List String × List String × String) := do
  let season ← gl "season"
  let occasion ← gl "occasion"
  let skill_level ← gs "skill_level"
  some (season, occasion, skill_level)

/-- Special characteristics: `style_tags`, `prep_style`. -/
def readSpecial (gl : String → Option (List String)) :
    Option (List String × List String) := do
  let style_tags ← gl "style_tags"
  let prep_style ← gl "prep_style"
  some (style_tags, prep_style)

/-- Pydantic validation `Recipe(**recipe_data)` for the master extractor's model:
the payload must be a JSON object, every key must be a declared field
(`extra="forbid"`), and every one of the 26 required fields must be present with
the declared shape.  `none` models a raised `TypeError`/`ValidationError`. -/
def validateRecipeM (j : Jval) : Option MRecipe :=
  match j with
  | .obj fields =>
    if fields.all (fun f => mRecipeKeys.contains f.1) then do
      let core ← readCore (getStr j) (getStrList j)
      let classif ← readClassif (getStr j)
      let ingred ← readIngred (getStrList j)
      let cook ← readCooking (getStrList j)
      let tim ← readTiming (getStr j)
      let exper ← readExper (getStr j) (getStrList j)
      let diet ← readDietary (getStrList j)
      let ctx ← readContext (getStr j) (getStrList j)
      let spec ← readSpecial (getStrList j)
      some ⟨core.1, core.2.1, core.2.2, classif.1, classif.2.1, classif.2.2,
            ingred.1, ingred.2.1, ingred.2.2.1, ingred.2.2.2,
            cook.1, cook.2, tim.1, tim.2.1, tim.2.2.1, tim.2.2.2,
            exper.1, exper.2.1, exper.2.2, diet.1, diet.2,
            ctx.1, ctx.2.1, ctx.2.2, spec.1, spec.2⟩
    else none
  | _ => none

/-- One line of the job manifest (`data/tasks.jsonl`): correlation id, HTTP
method/path, and the request body's model name and formatted prompt.  The
embedded JSON-schema descriptor is constant per job and not needed by any
claim, so it is not carried. -/
structure TaskLine where
  custom_id : String
  method : String
  url : String
  model : String
  input : String

/-- `MasterRecipeExtractor.create_batch`, manifest-building loop
(`master_recipe_extractor.py`): skips posts with `not post.caption_text.strip()`,
otherwise emits a line with `custom_id = f"recipe-{post.id}"`.  `instr` models
`instruction.format(caption=...)`. -/
def masterCreateBatchLines (model : String) (instr : String → String)
    (posts : List Media) : List TaskLine :=
  posts.filterMap (fun post =>
    if pyBlank post.caption_text then none
    else some ⟨"recipe-" ++ post.id, "POST", "/v1/responses", model,
               instr post.caption_text⟩)

/-- `RecipeExtractor.create_batch`, manifest-building loop
(`recipe_extractor.py`): same skip condition `not post.caption_text.strip()`. -/
def xCreateBatchLines (model : String) (instr : String → String)
    (posts : List Media) : List TaskLine :=
  posts.filterMap (fun post =>
    if pyBlank post.caption_text then none
    else some ⟨"recipe-" ++ post.id, "POST", "/v1/responses", model,
               instr post.caption_text⟩)

/-- `RecipeExtractor.build_tasks_jsonl` (`v1.5/recipe_analyzer.py`).  Before
the write loop it computes `schema = Recipe.model_json_schema_strict()`
(line 40), but `foodiegram.types.Recipe` is a plain pydantic `BaseModel` and no
such method is defined anywhere in the repository, so the call unconditionally
raises `AttributeError` before the tasks file is opened: the loop that would
skip posts with `not post.caption_text` never runs and no manifest line is
ever emitted. -/
def buildTasksJsonl (model : String) (instr : String → String)
    (posts : List Media) : Except String (List TaskLine) :=
  Except.error "AttributeError: model_json_schema_strict"

/-- The post lookup `{f"recipe-{post.id}": post for post in posts}` built
identically by `parse_results` in `master_recipe_extractor.py`,
`recipe_extractor.py` and `v1.5/recipe_analyzer.py`. -/
def postLookup (posts : List Media) : List (String × Media) :=
  posts.map (fun post => ("recipe-" ++ post.id, post))

/-- Python dict lookup on an association list built by a dict comprehension:
on duplicate keys the later entry wins, so search the reversed list. -/
def dictFind (d : List (String × Media)) (k : String) : Option Media :=
  (d.reverse.find? (fun e => e.1 == k)).map (fun e => e.2)

/-- The nested access `result["response"]["body"]["output"][0]["content"][0]["text"]`
shared by all three `parse_results` implementations; `none` models any raised
`KeyError`/`IndexError`/`TypeError` along the chain. -/
def extractOutputText (result : Jval) : Option String := do
  let resp ← result.get? "response"
  let body ← resp.get? "body"
  let output ← body.get? "output"
  let o0 ← output.idx? 0
  let content ← o0.get? "content"
  let c0 ← content.idx? 0
  let t ← c0.get? "text"
  t.asStr?

/-- One iteration of the result loop of `MasterRecipeExtractor.parse_results`
(`master_recipe_extractor.py`).  The whole body after the blank check sits in a
`try/except Exception: continue`, so every failure mode (invalid JSON, missing
`custom_id`, unknown correlation id, broken payload, schema-validation failure)
produces no record and never raises. -/
def masterProcessLine (loads : String → Option Jval)
    (lookup : List (String × Media)) (line : String) : Option MRecipe :=
  if pyBlank line then none
  else
    match loads line with
    | none => none
    | some result =>
      match result.get? "custom_id" with
      | none => none
      | some cid =>
        match cid with
        | .str s =>
          match dictFind lookup s with
          | none => none
          | some _post =>
            (extractOutputText result).bind (fun t => (loads t).bind validateRecipeM)
        | _ => none

/-- `MasterRecipeExtractor.parse_results`: a missing results file yields `[]`;
otherwise every line is processed independently and failures are skipped. -/
def masterParseResults (loads : String → Option Jval) (posts : List Media)
    (file : Option (List String)) : List MRecipe :=
  match file with
  | none => []
  | some lines => lines.filterMap (masterProcessLine loads (postLookup posts))

/-- `foodiegram.types.Recipe`: the flat record plus the source-post fields
(`post_id: int`, `code: str`, `caption: str`, `thumbnail_url: str | None`).
Default pydantic config: extra keys are ignored, not forbidden. -/
structure XRecipe where
  post_id : Int
  code : String
  caption : String
  thumbnail_url : Option String
  title : String
  ingredients : List String
  instructions : List String
  cuisine_type : String
  difficulty : String
  meal_type : String
  proteins : List String
  vegetables : List String
  grains_starches : List String
  herbs_spices : List String
  cooking_methods : List String
  equipment : List String
  prep_time : String
  cook_time : String
  total_time : String
  servings : String
  temperature : String
  texture : List String
  flavor_profile : List String
  dietary_tags : List String
  health_tags : List String
  season : List String
  occasion : List String
  skill_level : String
  style_tags : List String
  prep_style : List String

/-- Keyword-argument lookup: the value passed for key `k`, if any. -/
def kwFind (kw : List (String × Jval)) (k : String) : Option Jval :=
  (kw.find? (fun e => e.1 == k)).map (fun e => e.2)

/-- Keyword argument validated as a pydantic `str` field. -/
def kwStr (kw : List (String × Jval)) (k : String) : Option String :=
  (kwFind kw k).bind Jval.asStr?

/-- Keyword argument validated as a pydantic `list[str]` field. -/
def kwStrList (kw : List (String × Jval)) (k : String) : Option (List String) :=
  (kwFind kw k).bind Jval.asStrList?

/-- The source-post part of `foodiegram.types.Recipe` validation:
`post_id: int` (required, lax mode accepts integral strings), `code: str`,
`caption: str` (required), `thumbnail_url: str | None` (optional, default
`None`). -/
def readXPost (kw : List (String × Jval)) :
    Option (Int × String × String × Option String) := do
  let post_id ← (kwFind kw "post_id").bind Jval.asInt?
  let code ← kwStr kw "code"
  let caption ← kwStr kw "caption"
  let thumb ←
    match kwFind kw "thumbnail_url" with
    | none => some none
    | some .null => some none
    | some (.str s) => some (some s)
    | some _ => none
  some (post_id, code, caption, thumb)

/-- Pydantic construction `Recipe(...)` of `foodiegram.types.Recipe` from a
keyword-argument mapping: all required fields must be present and well-shaped;
unknown keywords are ignored (default pydantic config).  `none` models a raised
`ValidationError`. -/
def recipeXFromKwargs (kw : List (String × Jval)) : Option XRecipe := do
  let post ← readXPost kw
  let core ← readCore (kwStr kw) (kwStrList kw)
  let classif ← readClassif (kwStr kw)
  let ingred ← readIngred (kwStrList kw)
  let cook ← readCooking (kwStrList kw)
  let tim ← readTiming (kwStr kw)
  let exper ← readExper (kwStr kw) (kwStrList kw)
  let diet ← readDietary (kwStrList kw)
  let ctx ← readContext (kwStr kw) (kwStrList kw)
  let spec ← readSpecial (kwStrList kw)
  some ⟨post.1, post.2.1, post.2.2.1, post.2.2.2,
        core.1, core.2.1, core.2.2, classif.1, classif.2.1, classif.2.2,
        ingred.1, ingred.2.1, ingred.2.2.1, ingred.2.2.2,
        cook.1, cook.2, tim.1, tim.2.1, tim.2.2.1, tim.2.2.2,
        exper.1, exper.2.1, exper.2.2, diet.1, diet.2,
        ctx.1, ctx.2.1, ctx.2.2, spec.1, spec.2⟩

/-- `Recipe(**recipe_data)` in `v1.5/recipe_analyzer.py` where `Recipe` is
`foodiegram.types.Recipe`: the decoded payload itself must supply every
required field; a non-mapping payload raises `TypeError` (modelled `none`). -/
def validateRecipeXObj (j : Jval) : Option XRecipe :=
  match j with
  | .obj fields => recipeXFromKwargs fields
  | _ => none

/-- The keyword names passed explicitly by `RecipeExtractor.parse_results`
(`recipe_extractor.py`); a payload key equal to one of them makes the call
`Recipe(post_id=..., code=..., caption=..., thumbnail_url=..., **recipe_data)`
raise `TypeError` (duplicate keyword argument). -/
def reservedXKeys : List String := ["post_id", "code", "caption", "thumbnail_url"]

/-- The explicit keyword arguments `post_id=post.id, code=post.code,
caption=post.caption_text, thumbnail_url=post.thumbnail_url` of
`recipe_extractor.py`'s record construction. -/
def xPostKwargs (post : Media) : List (String × Jval) :=
  [("post_id", .str post.id), ("code", .str post.code),
   ("caption", .str post.caption_text),
   ("thumbnail_url", match post.thumbnail_url with
                     | none => .null
                     | some s => .str s)]

/-- `Recipe(post_id=post.id, code=post.code, caption=post.caption_text,
thumbnail_url=post.thumbnail_url, **recipe_data)` (`recipe_extractor.py`):
fails on a non-mapping payload, on a payload key duplicating an explicit
keyword, or on pydantic validation failure. -/
def xRecordFromPayload (post : Media) (payload : Jval) : Option XRecipe :=
  match payload with
  | .obj fields =>
    if fields.any (fun f => reservedXKeys.contains f.1) then none
    else recipeXFromKwargs (xPostKwargs post ++ fields)
  | _ => none

/-- One iteration of the result loop of `RecipeExtractor.parse_results`
(`recipe_extractor.py`): identical control flow to the master loop, but the
record also carries the source-post fields. -/
def xProcessLine (loads : String → Option Jval)
    (lookup : List (String × Media)) (line : String) : Option XRecipe :=
  if pyBlank line then none
  else
    match loads line with
    | none => none
    | some result =>
      match result.get? "custom_id" with
      | none => none
      | some cid =>
        match cid with
        | .str s =>
          match dictFind lookup s with
          | none => none
          | some post =>
            (extractOutputText result).bind
              (fun t => (loads t).bind (xRecordFromPayload post))
        | _ => none

/-- `RecipeExtractor.parse_results` (`recipe_extractor.py`): a missing results
file yields `[]`; all per-line failures are caught and skipped. -/
def xParseResults (loads : String → Option Jval) (posts : List Media)
    (file : Option (List String)) : List XRecipe :=
  match file with
  | none => []
  | some lines => lines.filterMap (xProcessLine loads (postLookup posts))

/-- One iteration of the result loop of `RecipeExtractor.parse_results`
(`v1.5/recipe_analyzer.py`).  Unlike the other two variants, `json.loads(line)`,
the `custom_id` access and the lookup-membership test run OUTSIDE the
`try/except`, so their failures raise to the caller (`Except.error`); only the
payload extraction and record construction are guarded.  `.ok none` means the
line was skipped, `.ok (some r)` that it produced a record. -/
def v15ProcessLine (loads : String → Option Jval)
    (lookup : List (String × Media)) (line : String) :
    Except String (Option XRecipe) :=
  if line == "" then .ok none
  else
    match loads line with
    | none => .error "JSONDecodeError"
    | some result =>
      match result.get? "custom_id" with
      | none => .error "KeyError: custom_id"
      | some cid =>
        match cid with
        | .str s =>
          match dictFind lookup s with
          | none => .ok none
          | some _post =>
            .ok ((extractOutputText result).bind
                   (fun t => (loads t).bind validateRecipeXObj))
        | .num _ => .ok none
        | .bool _ => .ok none
        | .null => .ok none
        | .arr _ => .error "TypeError: unhashable type"
        | .obj _ => .error "TypeError: unhashable type"

/-- The result loop of `v1.5/recipe_analyzer.py`'s `parse_results`: sequential,
and the first raising line aborts the whole loop. -/
def v15Go (loads : String → Option Jval) (lookup : List (String × Media)) :
    List String → Except String (List XRecipe)
  | [] => .ok []
  | l :: rest =>
    match v15ProcessLine loads lookup l with
    | .error e => .error e
    | .ok none => v15Go loads lookup rest
    | .ok (some r) => (v15Go loads lookup rest).map (fun rs => r :: rs)

/-- `RecipeExtractor.parse_results` (`v1.5/recipe_analyzer.py`): a missing
results file yields `[]`, but malformed lines raise to the caller. -/
def v15ParseResults (loads : String → Option Jval) (posts : List Media)
    (file : Option (List String)) : Except String (List XRecipe) :=
  match file with
  | none => .ok []
  | some lines => v15Go loads (postLookup posts) lines

/-- A batch object as retrieved by one `batches.retrieve` call; only the status
string is consumed by the polling loops. -/
structure BatchSnap where
  status : String

/-- The terminal-state set `{"completed", "failed", "cancelled", "expired"}`
tested by both `wait_for_batch` loops. -/
def batchTerminalStates : List String := ["completed", "failed", "cancelled", "expired"]

/-- `MasterRecipeExtractor.wait_for_batch` (`master_recipe_extractor.py`): the
loop retrieves the batch, returns it as soon as its status is terminal —
including `failed`/`cancelled`/`expired` — and otherwise sleeps 30s and retries.
The argument is the sequence of retrieved snapshots; `none` means no observed
snapshot was terminal (the loop is still polling).  The body contains no
`raise`: the function never raises. -/
def masterWaitForBatch : List BatchSnap → Option BatchSnap
  | [] => none
  | b :: rest =>
    if batchTerminalStates.contains b.status then some b
    else masterWaitForBatch rest

/-- `RecipeExtractor.wait_for_batch` (`v1.5/recipe_analyzer.py`): identical
status dispatch (8s sleep interval); returns the batch on any terminal status,
never raises. -/
def v15WaitForBatch : List BatchSnap → Option BatchSnap
  | [] => none
  | b :: rest =>
    if batchTerminalStates.contains b.status then some b
    else v15WaitForBatch rest

/-- `EnhancedRecipeAnalyzer._poll_batch_completion` (`v1.5/analyzer.py`): on
`completed` it downloads and parses the result stream and returns it normally
(the download/parse is external I/O, abstracted as the `α` attached to each
snapshot); on `failed`/`expired`/`cancelled` it raises
`Exception(f"Batch processing failed: {status}")`; otherwise it sleeps 30s and
retries. -/
def pollBatchCompletion {α : Type} : List (String × α) → Option (Except String α)
  | [] => none
  | (st, res) :: rest =>
    if st == "completed" then some (.ok res)
    else if ["failed", "expired", "cancelled"].contains st then
      some (.error ("Batch processing failed: " ++ st))
    else pollBatchCompletion rest

/-- `foodiegram.types.Collection` (defaults: `post_pks=[]`, `last_media_pk=0`,
`name=""`, `type=""`, `media_count=None`). -/
structure Collection where
  id : String
  post_pks : List String
  last_media_pk : Int
  name : String
  type : String
  media_count : Option Int

/-- `Collection.append_posts` (`foodiegram/types.py`): extends `post_pks` with
`str(post.pk)` for every post and, when the list is non-empty, sets
`last_media_pk = int(posts[-1].pk)`.  `int(...)` on a non-numeric string raises
`ValueError`, modelled by `none` (the mutation is then not persisted because
`save_collection` aborts before writing). -/
def Collection.append_posts (c : Collection) (posts : List Media) :
    Option Collection :=
  match posts.getLast? with
  | none => some { c with post_pks := c.post_pks ++ posts.map (fun p => p.pk) }
  | some lastP =>
    (pyInt? lastP.pk).map (fun n =>
      { c with post_pks := c.post_pks ++ posts.map (fun p => p.pk),
               last_media_pk := n })

/-- `CacheManager.save_collection` (`cache_manager.py`), acting on the cached
value `stored` that `get_collection` returned for this id (`none`: absent or
unreadable).  For an existing collection it appends the posts (when non-empty)
and then updates `name`, `type` and `media_count` through Python `or`, which
keeps the old value whenever the argument is falsy (`""`, `None`, or `0`).
Returns the collection written back to disk; `none` models a raise inside
`append_posts`. -/
def saveCollection (stored : Option Collection) (cid : String)
    (posts : List Media) (name : String) (type_ : String)
    (media_count : Option Int) : Option Collection :=
  match stored with
  | some c0 =>
    let afterPosts := if posts.isEmpty then some c0 else c0.append_posts posts
    afterPosts.map (fun c1 =>
      { c1 with
        name := if name == "" then c1.name else name,
        type := if type_ == "" then c1.type else type_,
        media_count := match media_count with
                       | none => c1.media_count
                       | some m => if m == 0 then c1.media_count else some m })
  | none =>
    some { id := cid, post_pks := posts.map (fun p => p.pk), last_media_pk := 0,
           name := name, type := type_, media_count := media_count }

/-- The keyword arguments of the "failed recipe entry" that
`RecipeAnalyzer.analyze_posts_batch` (`foodiegram/analyzer.py`) constructs in
its exception handler: `Recipe(post_id=post.pk, code=post.code,
caption=post.caption_text, title="", is_recipe=False, confidence_score=0.0,
analysis_notes=f"Analysis failed: {e!s}")`.  `Recipe` here is
`foodiegram.types.Recipe`. -/
def placeholderKwargs (post : Media) (errMsg : String) : List (String × Jval) :=
  [("post_id", .str post.pk), ("code", .str post.code),
   ("caption", .str post.caption_text), ("title", .str ""),
   ("is_recipe", .bool false), ("confidence_score", .num 0),
   ("analysis_notes", .str ("Analysis failed: " ++ errMsg))]

/-- `RecipeAnalyzer.analyze_posts_batch` (`foodiegram/analyzer.py`).  The
per-post analysis (two LLM agent calls plus record assembly) is modelled by the
parameter `analyze`; `.error` is an exception escaping `analyze_post`.  The
handler then constructs the placeholder record; if that pydantic construction
itself raises (`recipeXFromKwargs ... = none`), the exception escapes the
handler and aborts the whole batch. -/
def analyzePostsBatch (analyze : Media → Except String XRecipe) :
    List Media → Except String (List XRecipe)
  | [] => .ok []
  | p :: rest =>
    match analyze p with
    | .ok r => (analyzePostsBatch analyze rest).map (fun rs => r :: rs)
    | .error e =>
      match recipeXFromKwargs (placeholderKwargs p e) with
      | some r => (analyzePostsBatch analyze rest).map (fun rs => r :: rs)
      | none => .error "ValidationError: missing required fields"

/-- The statistics dictionary built by `analyze_extraction_quality` (identical
in `master_recipe_extractor.py` and `recipe_extractor.py`).  The Python code
formats each completeness ratio as a percentage string; the ratio itself is
kept as a rational here. -/
structure QualityStats where
  total : Nat
  field_counts : List (String × Nat)
  field_completeness : List (String × ℚ)
  unique_cuisines : Nat
  unique_cooking_methods : Nat
  unique_proteins : Nat
  unique_vegetables : Nat
  avg_ingredients_per_recipe : ℚ
  avg_tags_per_recipe : ℚ

/-- Result of `analyze_extraction_quality`: either the error dictionary
`{"error": "No recipes to analyze"}` or the statistics dictionary. -/
inductive QualityReport where
  | error (msg : String)
  | report (stats : QualityStats)

/-- The `complete_fields` counts of `analyze_extraction_quality`, using Python
truthiness (`if r.title and r.title != "unknown"`, `if r.ingredients`, ...). -/
def mCompleteCounts (rs : List MRecipe) : List (String × Nat) :=
  [("has_title", (rs.filter (fun r => !(r.title == "") && !(r.title == "unknown"))).length),
   ("has_ingredients", (rs.filter (fun r => !r.ingredients.isEmpty)).length),
   ("has_instructions", (rs.filter (fun r => !r.instructions.isEmpty)).length),
   ("has_proteins", (rs.filter (fun r => !r.proteins.isEmpty)).length),
   ("has_vegetables", (rs.filter (fun r => !r.vegetables.isEmpty)).length),
   ("has_cooking_methods", (rs.filter (fun r => !r.cooking_methods.isEmpty)).length),
   ("has_season", (rs.filter (fun r => !r.season.isEmpty && !(r.season.contains "unknown"))).length),
   ("has_occasion", (rs.filter (fun r => !r.occasion.isEmpty)).length),
   ("has_dietary_tags", (rs.filter (fun r => !r.dietary_tags.isEmpty)).length)]

/-- `MasterRecipeExtractor.analyze_extraction_quality`
(`master_recipe_extractor.py`): returns the error dictionary on an empty list;
otherwise every division (`v / total * 100` and the two averages) divides by
`total = len(recipes)`. -/
def analyzeQualityM (recipes : List MRecipe) : QualityReport :=
  if recipes.isEmpty then .error "No recipes to analyze"
  else
    let total := recipes.length
    let counts := mCompleteCounts recipes
    .report
      { total := total
        field_counts := counts
        field_completeness :=
          counts.map (fun e => (e.1, ((e.2 : ℚ) / (total : ℚ)) * 100))
        unique_cuisines := ((recipes.map (fun r => r.cuisine_type)).eraseDups).length
        unique_cooking_methods := ((recipes.flatMap (fun r => r.cooking_methods)).eraseDups).length
        unique_proteins := ((recipes.flatMap (fun r => r.proteins)).eraseDups).length
        unique_vegetables := ((recipes.flatMap (fun r => r.vegetables)).eraseDups).length
        avg_ingredients_per_recipe :=
          (((recipes.map (fun r => r.ingredients.length)).sum : ℚ)) / (total : ℚ)
        avg_tags_per_recipe :=
          (((recipes.map (fun r => (r.dietary_tags ++ r.style_tags ++ r.occasion).length)).sum : ℚ)) / (total : ℚ) }

/-- The `complete_fields` counts over `foodiegram.types.Recipe` records
(`recipe_extractor.py`, same expressions). -/
def xCompleteCounts (rs : List XRecipe) : List (String × Nat) :=
  [("has_title", (rs.filter (fun r => !(r.title == "") && !(r.title == "unknown"))).length),
   ("has_ingredients", (rs.filter (fun r => !r.ingredients.isEmpty)).length),
   ("has_instructions", (rs.filter (fun r => !r.instructions.isEmpty)).length),
   ("has_proteins", (rs.filter (fun r => !r.proteins.isEmpty)).length),
   ("has_vegetables", (rs.filter (fun r => !r.vegetables.isEmpty)).length),
   ("has_cooking_methods", (rs.filter (fun r => !r.cooking_methods.isEmpty)).length),
   ("has_season", (rs.filter (fun r => !r.season.isEmpty && !(r.season.contains "unknown"))).length),
   ("has_occasion", (rs.filter (fun r => !r.occasion.isEmpty)).length),
   ("has_dietary_tags", (rs.filter (fun r => !r.dietary_tags.isEmpty)).length)]

/-- `RecipeExtractor.analyze_extraction_quality` (`recipe_extractor.py`): same
body over `foodiegram.types.Recipe` records. -/
def analyzeQualityX (recipes : List XRecipe) : QualityReport :=
  if recipes.isEmpty then .error "No recipes to analyze"
  else
    let total := recipes.length
    let counts := xCompleteCounts recipes
    .report
      { total := total
        field_counts := counts
        field_completeness :=
          counts.map (fun e => (e.1, ((e.2 : ℚ) / (total : ℚ)) * 100))
        unique_cuisines := ((recipes.map (fun r => r.cuisine_type)).eraseDups).length
        unique_cooking_methods := ((recipes.flatMap (fun r => r.cooking_methods)).eraseDups).length
        unique_proteins := ((recipes.flatMap (fun r => r.proteins)).eraseDups).length
        unique_vegetables := ((recipes.flatMap (fun r => r.vegetables)).eraseDups).length
        avg_ingredients_per_recipe :=
          (((recipes.map (fun r => r.ingredients.length)).sum : ℚ)) / (total : ℚ)
        avg_tags_per_recipe :=
          (((recipes.map (fun r => (r.dietary_tags ++ r.style_tags ++ r.occasion).length)).sum : ℚ)) / (total : ℚ) }

/-- A concrete post used as a test input. -/
def post1 : Media :=
  { id := "1", pk := "11", code := "abc", caption_text := "Pasta with tomato sauce",
    thumbnail_url := none, title := "Pasta" }

/-- A concrete post whose caption is whitespace only. -/
def postWS : Media :=
  { id := "2", pk := "22", code := "defg", caption_text := " ",
    thumbnail_url := none, title := "" }

/-- A concrete payload obeying the master extractor's `Recipe` schema. -/
def samplePayloadM : Jval :=
  .obj [("title", .str "Pasta"), ("ingredients", .arr [.str "pasta"]),
        ("instructions", .arr [.str "cook"]), ("cuisine_type", .str "italian"),
        ("difficulty", .str "easy"), ("meal_type", .str "dinner"),
        ("proteins", .arr []), ("vegetables", .arr [.str "tomato"]),
        ("grains_starches", .arr [.str "pasta"]),
        ("herbs_spices", .arr [.str "basil"]),
        ("cooking_methods", .arr [.str "boiling"]),
        ("equipment", .arr [.str "pan"]),
        ("prep_time", .str "10 minutes"), ("cook_time", .str "20 minutes"),
        ("total_time", .str "30 minutes"), ("servings", .str "2"),
        ("temperature", .str "hot"), ("texture", .arr [.str "tender"]),
        ("flavor_profile", .arr [.str "savory"]),
        ("dietary_tags", .arr [.str "vegetarian"]),
        ("health_tags", .arr []), ("season", .arr [.str "year_round"]),
        ("occasion", .arr [.str "weeknight"]), ("skill_level", .str "beginner"),
        ("style_tags", .arr [.str "traditional"]),
        ("prep_style", .arr [.str "quick"])]

/-- The record `validateRecipeM` produces from `samplePayloadM`. -/
def sampleRecipeM : MRecipe :=
  { title := "Pasta", ingredients := ["pasta"], instructions := ["cook"],
    cuisine_type := "italian", difficulty := "easy", meal_type := "dinner",
    proteins := [], vegetables := ["tomato"], grains_starches := ["pasta"],
    herbs_spices := ["basil"], cooking_methods := ["boiling"],
    equipment := ["pan"], prep_time := "10 minutes", cook_time := "20 minutes",
    total_time := "30 minutes", servings := "2", temperature := "hot",
    texture := ["tender"], flavor_profile := ["savory"],
    dietary_tags := ["vegetarian"], health_tags := [],
    season := ["year_round"], occasion := ["weeknight"],
    skill_level := "beginner", style_tags := ["traditional"],
    prep_style := ["quick"] }

/-- A concrete payload obeying `foodiegram.types.Recipe` including the
source-post fields, as `v1.5`'s `Recipe(**recipe_data)` requires. -/
def samplePayloadX : Jval :=
  match samplePayloadM with
  | .obj fields =>
    .obj (("post_id", .num 11) :: ("code", .str "abc")
          :: ("caption", .str "hi") :: fields)
  | j => j

/-- The record `Recipe(**recipe_data)` produces from `samplePayloadX`. -/
def sampleRecipeX15 : XRecipe :=
  { post_id := 11, code := "abc", caption := "hi", thumbnail_url := none,
    title := "Pasta", ingredients := ["pasta"], instructions := ["cook"],
    cuisine_type := "italian", difficulty := "easy", meal_type := "dinner",
    proteins := [], vegetables := ["tomato"], grains_starches := ["pasta"],
    herbs_spices := ["basil"], cooking_methods := ["boiling"],
    equipment := ["pan"], prep_time := "10 minutes", cook_time := "20 minutes",
    total_time := "30 minutes", servings := "2", temperature := "hot",
    texture := ["tender"], flavor_profile := ["savory"],
    dietary_tags := ["vegetarian"], health_tags := [],
    season := ["year_round"], occasion := ["weeknight"],
    skill_level := "beginner", style_tags := ["traditional"],
    prep_style := ["quick"] }

/-- A result-stream line envelope with the given correlation id whose nested
`output[0].content[0].text` is the string `payloadKey`. -/
def resultLineJ (cid : String) (payloadKey : String) : Jval :=
  .obj [("custom_id", .str cid),
        ("response",
          .obj [("body",
            .obj [("output",
              .arr [.obj [("content",
                .arr [.obj [("text", .str payloadKey)]])]])])])]

/-- A concrete `json.loads` behaviour for the test inputs: the line named
`"good"` decodes to an envelope for `recipe-1` whose nested text is
`"payloadM"`; `"good15"` likewise with nested text `"payloadX"`; `"unk"`
decodes to an envelope with an unknown correlation id; every other string
(e.g. `"bad"`) is invalid JSON. -/
def sampleLoads : String → Option Jval := fun s =>
  if s == "good" then some (resultLineJ "recipe-1" "payloadM")
  else if s == "payloadM" then some samplePayloadM
  else if s == "good15" then some (resultLineJ "recipe-1" "payloadX")
  else if s == "payloadX" then some samplePayloadX
  else if s == "unk" then some (.obj [("custom_id", .str "recipe-99")])
  else none

/-- The record `recipe_extractor.py` builds for `post1` from `samplePayloadM`. -/
def sampleRecipeX : XRecipe :=
  { post_id := 1, code := "abc", caption := "Pasta with tomato sauce",
    thumbnail_url := none,
    title := "Pasta", ingredients := ["pasta"], instructions := ["cook"],
    cuisine_type := "italian", difficulty := "easy", meal_type := "dinner",
    proteins := [], vegetables := ["tomato"], grains_starches := ["pasta"],
    herbs_spices := ["basil"], cooking_methods := ["boiling"],
    equipment := ["pan"], prep_time := "10 minutes", cook_time := "20 minutes",
    total_time := "30 minutes", servings := "2", temperature := "hot",
    texture := ["tender"], flavor_profile := ["savory"],
    dietary_tags := ["vegetarian"], health_tags := [],
    season := ["year_round"], occasion := ["weeknight"],
    skill_level := "beginner", style_tags := ["traditional"],
    prep_style := ["quick"] }

/-- The classification fields of a master `Recipe` record coincide, field by
field, with the entries of the decoded payload object `j`. -/
def payloadFieldsEqM (j : Jval) (r : MRecipe) : Prop :=
  getStr j "title" = some r.title ∧
  getStrList j "ingredients" = some r.ingredients ∧
  getStrList j "instructions" = some r.instructions ∧
  getStr j "cuisine_type" = some r.cuisine_type ∧
  getStr j "difficulty" = some r.difficulty ∧
  getStr j "meal_type" = some r.meal_type ∧
  getStrList j "proteins" = some r.proteins ∧
  getStrList j "vegetables" = some r.vegetables ∧
  getStrList j "grains_starches" = some r.grains_starches ∧
  getStrList j "herbs_spices" = some r.herbs_spices ∧
  getStrList j "cooking_methods" = some r.cooking_methods ∧
  getStrList j "equipment" = some r.equipment ∧
  getStr j "prep_time" = some r.prep_time ∧
  getStr j "cook_time" = some r.cook_time ∧
  getStr j "total_time" = some r.total_time ∧
  getStr j "servings" = some r.servings ∧
  getStr j "temperature" = some r.temperature ∧
  getStrList j "texture" = some r.texture ∧
  getStrList j "flavor_profile" = some r.flavor_profile ∧
  getStrList j "dietary_tags" = some r.dietary_tags ∧
  getStrList j "health_tags" = some r.health_tags ∧
  getStrList j "season" = some r.season ∧
  getStrList j "occasion" = some r.occasion ∧
  getStr j "skill_level" = some r.skill_level ∧
  getStrList j "style_tags" = some r.style_tags ∧
  getStrList j "prep_style" = some r.prep_style

/-- The classification fields of a `foodiegram.types.Recipe` record coincide,
field by field, with the entries of the decoded payload object `j` (the
source-post fields `post_id`/`code`/`caption`/`thumbnail_url` come from the
post, not the payload). -/
def payloadFieldsEqX (j : Jval) (r : XRecipe) : Prop :=
  getStr j "title" = some r.title ∧
  getStrList j "ingredients" = some r.ingredients ∧
  getStrList j "instructions" = some r.instructions ∧
  getStr j "cuisine_type" = some r.cuisine_type ∧
  getStr j "difficulty" = some r.difficulty ∧
  getStr j "meal_type" = some r.meal_type ∧
  getStrList j "proteins" = some r.proteins ∧
  getStrList j "vegetables" = some r.vegetables ∧
  getStrList j "grains_starches" = some r.grains_starches ∧
  getStrList j "herbs_spices" = some r.herbs_spices ∧
  getStrList j "cooking_methods" = some r.cooking_methods ∧
  getStrList j "equipment" = some r.equipment ∧
  getStr j "prep_time" = some r.prep_time ∧
  getStr j "cook_time" = some r.cook_time ∧
  getStr j "total_time" = some r.total_time ∧
  getStr j "servings" = some r.servings ∧
  getStr j "temperature" = some r.temperature ∧
  getStrList j "texture" = some r.texture ∧
  getStrList j "flavor_profile" = some r.flavor_profile ∧
  getStrList j "dietary_tags" = some r.dietary_tags ∧
  getStrList j "health_tags" = some r.health_tags ∧
  getStrList j "season" = some r.season ∧
  getStrList j "occasion" = some r.occasion ∧
  getStr j "skill_level" = some r.skill_level ∧
  getStrList j "style_tags" = some r.style_tags ∧
  getStrList j "prep_style" = some r.prep_style

/-- Same as `payloadFieldsEqX`, read through a keyword-argument list. -/
def kwFieldsEqX (kw : List (String × Jval)) (r : XRecipe) : Prop :=
  kwStr kw "title" = some r.title ∧
  kwStrList kw "ingredients" = some r.ingredients ∧
  kwStrList kw "instructions" = some r.instructions ∧
  kwStr kw "cuisine_type" = some r.cuisine_type ∧
  kwStr kw "difficulty" = some r.difficulty ∧
  kwStr kw "meal_type" = some r.meal_type ∧
  kwStrList kw "proteins" = some r.proteins ∧
  kwStrList kw "vegetables" = some r.vegetables ∧
  kwStrList kw "grains_starches" = some r.grains_starches ∧
  kwStrList kw "herbs_spices" = some r.herbs_spices ∧
  kwStrList kw "cooking_methods" = some r.cooking_methods ∧
  kwStrList kw "equipment" = some r.equipment ∧
  kwStr kw "prep_time" = some r.prep_time ∧
  kwStr kw "cook_time" = some r.cook_time ∧
  kwStr kw "total_time" = some r.total_time ∧
  kwStr kw "servings" = some r.servings ∧
  kwStr kw "temperature" = some r.temperature ∧
  kwStrList kw "texture" = some r.texture ∧
  kwStrList kw "flavor_profile" = some r.flavor_profile ∧
  kwStrList kw "dietary_tags" = some r.dietary_tags ∧
  kwStrList kw "health_tags" = some r.health_tags ∧
  kwStrList kw "season" = some r.season ∧
  kwStrList kw "occasion" = some r.occasion ∧
  kwStr kw "skill_level" = some r.skill_level ∧
  kwStrList kw "style_tags" = some r.style_tags ∧
  kwStrList kw "prep_style" = some r.prep_style

/-- A concrete cached collection used as a test input. -/
def coll0 : Collection :=
  { id := "5", post_pks := ["9"], last_media_pk := 9, name := "old",
    type := "saved", media_count := some 7 }

/-- The collection `save_collection` writes back when called on `coll0` with
`posts=[post1]`, `name=""`, `type_=""`, `media_count=0`. -/
def coll1 : Collection :=
  { id := "5", post_pks := ["9", "11"], last_media_pk := 11, name := "old",
    type := "saved", media_count := some 7 }

/-! ### Helper lemmas -/

lemma readCore_eq_some (gs : String → Option String) (gl : String → Option (List String))
    (t : String × List String × List String) (h : readCore gs gl = some t) :
    gs "title" = some t.1 ∧ gl "ingredients" = some t.2.1 ∧
      gl "instructions" = some t.2.2 := by
  simp only [readCore, bind, Option.bind_eq_some] at h
  obtain ⟨a, ha, b, hb, c, hc, ht⟩ := h
  cases ht
  exact ⟨ha, hb, hc⟩

lemma readClassif_eq_some (gs : String → Option String)
    (t : String × String × String) (h : readClassif gs = some t) :
    gs "cuisine_type" = some t.1 ∧ gs "difficulty" = some t.2.1 ∧
      gs "meal_type" = some t.2.2 := by
  simp only [readClassif, bind, Option.bind_eq_some] at h
  obtain ⟨a, ha, b, hb, c, hc, ht⟩ := h
  cases ht
  exact ⟨ha, hb, hc⟩

lemma readIngred_eq_some (gl : String → Option (List String))
    (t : List String × List String × List String × List String)
    (h : readIngred gl = some t) :
    gl "proteins" = some t.1 ∧ gl "vegetables" = some t.2.1 ∧
      gl "grains_starches" = some t.2.2.1 ∧ gl "herbs_spices" = some t.2.2.2 := by
  simp only [readIngred, bind, Option.bind_eq_some] at h
  obtain ⟨a, ha, b, hb, c, hc, d, hd, ht⟩ := h
  cases ht
  exact ⟨ha, hb, hc, hd⟩

lemma readCooking_eq_some (gl : String → Option (List String))
    (t : List String × List String) (h : readCooking gl = some t) :
    gl "cooking_methods" = some t.1 ∧ gl "equipment" = some t.2 := by
  simp only [readCooking, bind, Option.bind_eq_some] at h
  obtain ⟨a, ha, b, hb, ht⟩ := h
  cases ht
  exact ⟨ha, hb⟩

lemma readTiming_eq_some (gs : String → Option String)
    (t : String × String × String × String) (h : readTiming gs = some t) :
    gs "prep_time" = some t.1 ∧ gs "cook_time" = some t.2.1 ∧
      gs "total_time" = some t.2.2.1 ∧ gs "servings" = some t.2.2.2 := by
  simp only [readTiming, bind, Option.bind_eq_some] at h
  obtain ⟨a, ha, b, hb, c, hc, d, hd, ht⟩ := h
  cases ht
  exact ⟨ha, hb, hc, hd⟩

lemma readExper_eq_some (gs : String → Option String)
    (gl : String → Option (List String))
    (t : String × List String × List String) (h : readExper gs gl = some t) :
    gs "temperature" = some t.1 ∧ gl "texture" = some t.2.1 ∧
      gl "flavor_profile" = some t.2.2 := by
  simp only [readExper, bind, Option.bind_eq_some] at h
  obtain ⟨a, ha, b, hb, c, hc, ht⟩ := h
  cases ht
  exact ⟨ha, hb, hc⟩

lemma readDietary_eq_some (gl : String → Option (List String))
    (t : List String × List String) (h : readDietary gl = some t) :
    gl "dietary_tags" = some t.1 ∧ gl "health_tags" = some t.2 := by
  simp only [readDietary, bind, Option.bind_eq_some] at h
  obtain ⟨a, ha, b, hb, ht⟩ := h
  cases ht
  exact ⟨ha, hb⟩

lemma readContext_eq_some (gs : String → Option String)
    (gl : String → Option (List String))
    (t : List String × List String × String) (h : readContext gs gl = some t) :
    gl "season" = some t.1 ∧ gl "occasion" = some t.2.1 ∧
      gs "skill_level" = some t.2.2 := by
  simp only [readContext, bind, Option.bind_eq_some] at h
  obtain ⟨a, ha, b, hb, c, hc, ht⟩ := h
  cases ht
  exact ⟨ha, hb, hc⟩

lemma readSpecial_eq_some (gl : String → Option (List String))
    (t : List String × List String) (h : readSpecial gl = some t) :
    gl "style_tags" = some t.1 ∧ gl "prep_style" = some t.2 := by
  simp only [readSpecial, bind, Option.bind_eq_some] at h
  obtain ⟨a, ha, b, hb, ht⟩ := h
  cases ht
  exact ⟨ha, hb⟩

lemma validateRecipeM_fields (j : Jval) (r : MRecipe)
    (h : validateRecipeM j = some r) : payloadFieldsEqM j r := by
  cases j with
  | obj fields =>
    simp only [validateRecipeM] at h
    split at h
    · simp only [bind, Option.bind_eq_some] at h
      obtain ⟨core, hcore, classif, hclassif, ingred, hingred, cook, hcook,
        tim, htim, exper, hexper, diet, hdiet, ctx, hctx, spec, hspec, hr⟩ := h
      cases hr
      obtain ⟨c1, c2, c3⟩ := readCore_eq_some _ _ _ hcore
      obtain ⟨k1, k2, k3⟩ := readClassif_eq_some _ _ hclassif
      obtain ⟨i1, i2, i3, i4⟩ := readIngred_eq_some _ _ hingred
      obtain ⟨o1, o2⟩ := readCooking_eq_some _ _ hcook
      obtain ⟨t1, t2, t3, t4⟩ := readTiming_eq_some _ _ htim
      obtain ⟨e1, e2, e3⟩ := readExper_eq_some _ _ _ hexper
      obtain ⟨d1, d2⟩ := readDietary_eq_some _ _ hdiet
      obtain ⟨x1, x2, x3⟩ := readContext_eq_some _ _ _ hctx
      obtain ⟨s1, s2⟩ := readSpecial_eq_some _ _ hspec
      exact ⟨c1, c2, c3, k1, k2, k3, i1, i2, i3, i4, o1, o2,
             t1, t2, t3, t4, e1, e2, e3, d1, d2, x1, x2, x3, s1, s2⟩
    · cases h
  | null => simp [validateRecipeM] at h
  | bool b => simp [validateRecipeM] at h
  | num n => simp [validateRecipeM] at h
  | str s => simp [validateRecipeM] at h
  | arr xs => simp [validateRecipeM] at h

lemma recipeXFromKwargs_fields (kw : List (String × Jval)) (r : XRecipe)
    (h : recipeXFromKwargs kw = some r) : kwFieldsEqX kw r := by
  simp only [recipeXFromKwargs, bind, Option.bind_eq_some] at h
  obtain ⟨post, hpost, core, hcore, classif, hclassif, ingred, hingred, cook, hcook,
    tim, htim, exper, hexper, diet, hdiet, ctx, hctx, spec, hspec, hr⟩ := h
  cases hr
  obtain ⟨c1, c2, c3⟩ := readCore_eq_some _ _ _ hcore
  obtain ⟨k1, k2, k3⟩ := readClassif_eq_some _ _ hclassif
  obtain ⟨i1, i2, i3, i4⟩ := readIngred_eq_some _ _ hingred
  obtain ⟨o1, o2⟩ := readCooking_eq_some _ _ hcook
  obtain ⟨t1, t2, t3, t4⟩ := readTiming_eq_some _ _ htim
  obtain ⟨e1, e2, e3⟩ := readExper_eq_some _ _ _ hexper
  obtain ⟨d1, d2⟩ := readDietary_eq_some _ _ hdiet
  obtain ⟨x1, x2, x3⟩ := readContext_eq_some _ _ _ hctx
  obtain ⟨s1, s2⟩ := readSpecial_eq_some _ _ hspec
  exact ⟨c1, c2, c3, k1, k2, k3, i1, i2, i3, i4, o1, o2,
         t1, t2, t3, t4, e1, e2, e3, d1, d2, x1, x2, x3, s1, s2⟩

lemma kwFind_xPost_append (post : Media) (fields : List (String × Jval)) (k : String)
    (h1 : k ≠ "post_id") (h2 : k ≠ "code") (h3 : k ≠ "caption")
    (h4 : k ≠ "thumbnail_url") :
    kwFind (xPostKwargs post ++ fields) k = kwFind fields k := by
  have e1 : ("post_id" == k) = false := beq_eq_false_iff_ne.mpr (Ne.symm h1)
  have e2 : ("code" == k) = false := beq_eq_false_iff_ne.mpr (Ne.symm h2)
  have e3 : ("caption" == k) = false := beq_eq_false_iff_ne.mpr (Ne.symm h3)
  have e4 : ("thumbnail_url" == k) = false := beq_eq_false_iff_ne.mpr (Ne.symm h4)
  simp [kwFind, xPostKwargs, List.find?_cons, e1, e2, e3, e4]

lemma kwStr_xPost_append (post : Media) (fields : List (String × Jval)) (k : String)
    (h1 : k ≠ "post_id") (h2 : k ≠ "code") (h3 : k ≠ "caption")
    (h4 : k ≠ "thumbnail_url") :
    kwStr (xPostKwargs post ++ fields) k = kwStr fields k := by
  unfold kwStr
  rw [kwFind_xPost_append post fields k h1 h2 h3 h4]

lemma kwStrList_xPost_append (post : Media) (fields : List (String × Jval)) (k : String)
    (h1 : k ≠ "post_id") (h2 : k ≠ "code") (h3 : k ≠ "caption")
    (h4 : k ≠ "thumbnail_url") :
    kwStrList (xPostKwargs post ++ fields) k = kwStrList fields k := by
  unfold kwStrList
  rw [kwFind_xPost_append post fields k h1 h2 h3 h4]

lemma xRecordFromPayload_fields (post : Media) (payload : Jval) (r : XRecipe)
    (h : xRecordFromPayload post payload = some r) : payloadFieldsEqX payload r := by
  cases payload with
  | obj fields =>
    simp only [xRecordFromPayload] at h
    split at h
    · cases h
    · have hk := recipeXFromKwargs_fields _ _ h
      obtain ⟨c1, c2, c3, k1, k2, k3, i1, i2, i3, i4, o1, o2,
        t1, t2, t3, t4, e1, e2, e3, d1, d2, x1, x2, x3, s1, s2⟩ := hk
      refine ⟨?_, ?_, ?_, ?_, ?_, ?_, ?_, ?_, ?_, ?_, ?_, ?_, ?_, ?_,
              ?_, ?_, ?_, ?_, ?_, ?_, ?_, ?_, ?_, ?_, ?_, ?_⟩
      · exact ((kwStr_xPost_append post fields "title" (by decide) (by decide)
          (by decide) (by decide)).symm.trans c1)
      · exact ((kwStrList_xPost_append post fields "ingredients" (by decide) (by decide)
          (by decide) (by decide)).symm.trans c2)
      · exact ((kwStrList_xPost_append post fields "instructions" (by decide) (by decide)
          (by decide) (by decide)).symm.trans c3)
      · exact ((kwStr_xPost_append post fields "cuisine_type" (by decide) (by decide)
          (by decide) (by decide)).symm.trans k1)
      · exact ((kwStr_xPost_append post fields "difficulty" (by decide) (by decide)
          (by decide) (by decide)).symm.trans k2)
      · exact ((kwStr_xPost_append post fields "meal_type" (by decide) (by decide)
          (by decide) (by decide)).symm.trans k3)
      · exact ((kwStrList_xPost_append post fields "proteins" (by decide) (by decide)
          (by decide) (by decide)).symm.trans i1)
      · exact ((kwStrList_xPost_append post fields "vegetables" (by decide) (by decide)
          (by decide) (by decide)).symm.trans i2)
      · exact ((kwStrList_xPost_append post fields "grains_starches" (by decide) (by decide)
          (by decide) (by decide)).symm.trans i3)
      · exact ((kwStrList_xPost_append post fields "herbs_spices" (by decide) (by decide)
          (by decide) (by decide)).symm.trans i4)
      · exact ((kwStrList_xPost_append post fields "cooking_methods" (by decide) (by decide)
          (by decide) (by decide)).symm.trans o1)
      · exact ((kwStrList_xPost_append post fields "equipment" (by decide) (by decide)
          (by decide) (by decide)).symm.trans o2)
      · exact ((kwStr_xPost_append post fields "prep_time" (by decide) (by decide)
          (by decide) (by decide)).symm.trans t1)
      · exact ((kwStr_xPost_append post fields "cook_time" (by decide) (by decide)
          (by decide) (by decide)).symm.trans t2)
      · exact ((kwStr_xPost_append post fields "total_time" (by decide) (by decide)
          (by decide) (by decide)).symm.trans t3)
      · exact ((kwStr_xPost_append post fields "servings" (by decide) (by decide)
          (by decide) (by decide)).symm.trans t4)
      · exact ((kwStr_xPost_append post fields "temperature" (by decide) (by decide)
          (by decide) (by decide)).symm.trans e1)
      · exact ((kwStrList_xPost_append post fields "texture" (by decide) (by decide)
          (by decide) (by decide)).symm.trans e2)
      · exact ((kwStrList_xPost_append post fields "flavor_profile" (by decide) (by decide)
          (by decide) (by decide)).symm.trans e3)
      · exact ((kwStrList_xPost_append post fields "dietary_tags" (by decide) (by decide)
          (by decide) (by decide)).symm.trans d1)
      · exact ((kwStrList_xPost_append post fields "health_tags" (by decide) (by decide)
          (by decide) (by decide)).symm.trans d2)
      · exact ((kwStrList_xPost_append post fields "season" (by decide) (by decide)
          (by decide) (by decide)).symm.trans x1)
      · exact ((kwStrList_xPost_append post fields "occasion" (by decide) (by decide)
          (by decide) (by decide)).symm.trans x2)
      · exact ((kwStr_xPost_append post fields "skill_level" (by decide) (by decide)
          (by decide) (by decide)).symm.trans x3)
      · exact ((kwStrList_xPost_append post fields "style_tags" (by decide) (by decide)
          (by decide) (by decide)).symm.trans s1)
      · exact ((kwStrList_xPost_append post fields "prep_style" (by decide) (by decide)
          (by decide) (by decide)).symm.trans s2)
  | null => simp [xRecordFromPayload] at h
  | bool b => simp [xRecordFromPayload] at h
  | num n => simp [xRecordFromPayload] at h
  | str s => simp [xRecordFromPayload] at h
  | arr xs => simp [xRecordFromPayload] at h

lemma recipeId_inj : Function.Injective (fun s : String => "recipe-" ++ s) := by
  intro a b h
  have hd : ("recipe-" ++ a).data = ("recipe-" ++ b).data := congrArg String.data h
  rw [String.data_append, String.data_append] at hd
  have hab : a.data = b.data := List.append_cancel_left hd
  cases a; cases b; exact congrArg String.mk hab

lemma assoc_find?_eq (d : List (String × Media)) (k : String) (v : Media)
    (hn : (d.map Prod.fst).Nodup) (hm : (k, v) ∈ d) :
    d.find? (fun e => e.1 == k) = some (k, v) := by
  induction d with
  | nil => simp at hm
  | cons e t ih =>
    obtain ⟨k', v'⟩ := e
    simp only [List.map_cons, List.nodup_cons] at hn
    rcases List.mem_cons.mp hm with heq | hmem
    · cases heq
      simp [List.find?_cons]
    · have hk : k' ≠ k := by
        intro hkk
        exact hn.1 (hkk ▸ List.mem_map.mpr ⟨(k, v), hmem, rfl⟩)
      have e1 : (k' == k) = false := beq_eq_false_iff_ne.mpr hk
      simp only [List.find?_cons, e1]
      exact ih hn.2 hmem

lemma dictFind_of_mem (d : List (String × Media)) (k : String) (v : Media)
    (hn : (d.map Prod.fst).Nodup) (hm : (k, v) ∈ d) : dictFind d k = some v := by
  have hn' : (d.reverse.map Prod.fst).Nodup := by
    rw [List.map_reverse]; exact List.nodup_reverse.mpr hn
  have hm' : (k, v) ∈ d.reverse := List.mem_reverse.mpr hm
  unfold dictFind
  rw [assoc_find?_eq d.reverse k v hn' hm']
  rfl

lemma dictFind_eq_none (d : List (String × Media)) (k : String)
    (h : ∀ e ∈ d, ¬ (e.1 = k)) : dictFind d k = none := by
  unfold dictFind
  have hf : d.reverse.find? (fun e => e.1 == k) = none := by
    rw [List.find?_eq_none]
    intro e he
    simpa using h e (List.mem_reverse.mp he)
  rw [hf]
  rfl

lemma postLookup_keys_nodup (posts : List Media)
    (h : (posts.map Media.id).Nodup) :
    ((postLookup posts).map Prod.fst).Nodup := by
  have : (postLookup posts).map Prod.fst = (posts.map Media.id).map (fun s => "recipe-" ++ s) := by
    simp [postLookup, Function.comp]
  rw [this]
  exact h.map recipeId_inj

lemma postLookup_dictFind (posts : List Media) (p : Media)
    (h : (posts.map Media.id).Nodup) (hp : p ∈ posts) :
    dictFind (postLookup posts) ("recipe-" ++ p.id) = some p := by
  refine dictFind_of_mem _ _ _ (postLookup_keys_nodup posts h) ?_
  simp only [postLookup, List.mem_map]
  exact ⟨p, hp, rfl⟩

lemma masterCreateBatchLines_length (model : String) (instr : String → String)
    (posts : List Media) :
    (masterCreateBatchLines model instr posts).length
      = (posts.filter (fun p => !pyBlank p.caption_text)).length := by
  induction posts with
  | nil => rfl
  | cons p t ih =>
    by_cases h : pyBlank p.caption_text
    · simpa [masterCreateBatchLines, List.filterMap_cons, List.filter_cons, h]
        using ih
    · simpa [masterCreateBatchLines, List.filterMap_cons, List.filter_cons, h]
        using ih

lemma xCreateBatchLines_length (model : String) (instr : String → String)
    (posts : List Media) :
    (xCreateBatchLines model instr posts).length
      = (posts.filter (fun p => !pyBlank p.caption_text)).length := by
  induction posts with
  | nil => rfl
  | cons p t ih =>
    by_cases h : pyBlank p.caption_text
    · simpa [xCreateBatchLines, List.filterMap_cons, List.filter_cons, h] using ih
    · simpa [xCreateBatchLines, List.filterMap_cons, List.filter_cons, h] using ih

lemma xCreateBatchLines_mem (model : String) (instr : String → String)
    (posts : List Media) (l : TaskLine)
    (h : l ∈ xCreateBatchLines model instr posts) :
    ∃ p ∈ posts, l.custom_id = "recipe-" ++ p.id ∧ pyBlank p.caption_text = false := by
  simp only [xCreateBatchLines, List.mem_filterMap] at h
  obtain ⟨p, hp, hf⟩ := h
  by_cases hb : pyBlank p.caption_text
  · simp [hb] at hf
  · simp only [hb, if_false, Option.some.injEq] at hf
    cases hf
    exact ⟨p, hp, rfl, by simp [hb]⟩

lemma masterCreateBatchLines_mem (model : String) (instr : String → String)
    (posts : List Media) (l : TaskLine)
    (h : l ∈ masterCreateBatchLines model instr posts) :
    ∃ p ∈ posts, l.custom_id = "recipe-" ++ p.id ∧ pyBlank p.caption_text = false := by
  simp only [masterCreateBatchLines, List.mem_filterMap] at h
  obtain ⟨p, hp, hf⟩ := h
  by_cases hb : pyBlank p.caption_text
  · simp [hb] at hf
  · simp only [hb, if_false, Option.some.injEq] at hf
    cases hf
    exact ⟨p, hp, rfl, by simp [hb]⟩

lemma masterCreateBatchLines_ids_sublist (model : String) (instr : String → String)
    (posts : List Media) :
    List.Sublist ((masterCreateBatchLines model instr posts).map TaskLine.custom_id)
      (posts.map (fun p => "recipe-" ++ p.id)) := by
  induction posts with
  | nil => simp [masterCreateBatchLines]
  | cons p t ih =>
    by_cases h : pyBlank p.caption_text
    · simp only [masterCreateBatchLines, List.filterMap_cons, h, if_true, List.map_cons]
      exact ih.cons _
    · simp only [masterCreateBatchLines, List.filterMap_cons, h, if_false, List.map_cons]
      exact ih.cons₂ _

/-! ### Claim theorems -/

/-- C1 (amended): `parse_results` in `master_recipe_extractor.py` and
`recipe_extractor.py` never raises — it is a total function into a record
list — and returns `[]` when the results file is missing; in
`v1.5/recipe_analyzer.py` a missing file also yields `[]`, but a non-blank
line whose JSON is malformed raises `JSONDecodeError` to the caller instead
of being handled. -/
theorem claim_C1 (loads : String → Option Jval) (posts : List Media) :
    (masterParseResults loads posts none = []
      ∧ xParseResults loads posts none = []
      ∧ v15ParseResults loads posts none = Except.ok [])
    ∧ (∀ line lines, line ≠ "" → loads line = none →
        v15ParseResults loads posts (some (line :: lines))
          = Except.error "JSONDecodeError") := by
  refine ⟨⟨rfl, rfl, rfl⟩, ?_⟩
  intro line lines hne hl
  have hbe : (line == "") = false := beq_eq_false_iff_ne.mpr hne
  simp [v15ParseResults, v15Go, v15ProcessLine, hbe, hl]

/-- C1 counterexample: the claim says the result-reconciliation stage never
raises for any file content, but `v1.5/recipe_analyzer.py`'s `parse_results`
raises `JSONDecodeError` on a stream whose single line is invalid JSON
(`sampleLoads "bad" = none`). -/
theorem claim_C1_cex :
    v15ParseResults sampleLoads [post1] (some ["bad"])
      = Except.error "JSONDecodeError" := rfl

/-- C1 witness: the amended theorem applied at concrete inputs. -/
theorem claim_C1_witness :
    masterParseResults sampleLoads [post1] none = []
    ∧ v15ParseResults sampleLoads [post1] (some ["oops"])
        = Except.error "JSONDecodeError" :=
  ⟨(claim_C1 sampleLoads [post1]).1.1,
   (claim_C1 sampleLoads [post1]).2 "oops" [] (by decide) rfl⟩

/-- C2 (amended): a result line with invalid JSON is skipped without affecting
the rest of the stream in `master_recipe_extractor.py` and
`recipe_extractor.py`; in `v1.5/recipe_analyzer.py` it instead aborts the
whole loop with `JSONDecodeError` — no subsequent line is processed. -/
theorem claim_C2 (loads : String → Option Jval) (posts : List Media)
    (line : String) (lines : List String) (h : loads line = none) :
    masterParseResults loads posts (some (line :: lines))
        = masterParseResults loads posts (some lines)
    ∧ xParseResults loads posts (some (line :: lines))
        = xParseResults loads posts (some lines)
    ∧ (line ≠ "" → v15ParseResults loads posts (some (line :: lines))
        = Except.error "JSONDecodeError") := by
  refine ⟨?_, ?_, ?_⟩
  · by_cases hb : pyBlank line
    · simp [masterParseResults, List.filterMap_cons, masterProcessLine, hb]
    · simp [masterParseResults, List.filterMap_cons, masterProcessLine, hb, h]
  · by_cases hb : pyBlank line
    · simp [xParseResults, List.filterMap_cons, xProcessLine, hb]
    · simp [xParseResults, List.filterMap_cons, xProcessLine, hb, h]
  · intro hne
    have hbe : (line == "") = false := beq_eq_false_iff_ne.mpr hne
    simp [v15ParseResults, v15Go, v15ProcessLine, hbe, h]

/-- C2 counterexample: in `v1.5/recipe_analyzer.py` the invalid line `"bad"`
aborts the loop with an exception, although the subsequent line `"good15"`
alone would have produced a record. -/
theorem claim_C2_cex :
    v15ParseResults sampleLoads [post1] (some ["bad", "good15"])
        = Except.error "JSONDecodeError"
    ∧ v15ParseResults sampleLoads [post1] (some ["good15"])
        = Except.ok [sampleRecipeX15] := ⟨rfl, rfl⟩

/-- C2 witness: the amended theorem applied at concrete inputs. -/
theorem claim_C2_witness :
    masterParseResults sampleLoads [post1] (some ["oops", "good"])
        = masterParseResults sampleLoads [post1] (some ["good"])
    ∧ xParseResults sampleLoads [post1] (some ["oops", "good"])
        = xParseResults sampleLoads [post1] (some ["good"])
    ∧ ("oops" ≠ "" → v15ParseResults sampleLoads [post1] (some ["oops", "good"])
        = Except.error "JSONDecodeError") :=
  claim_C2 sampleLoads [post1] "oops" ["good"] rfl

/-- C3: a well-formed result line whose correlation id is a string absent from
the ids `recipe-{post.id}` of the submitted posts contributes no record: the
parse of the stream with the line equals the parse without it, in all three
`parse_results` implementations. -/
theorem claim_C3 (loads : String → Option Jval) (posts : List Media)
    (line : String) (lines : List String) (j : Jval) (cid : String)
    (hl : loads line = some j) (hc : j.get? "custom_id" = some (.str cid))
    (hu : ∀ p ∈ posts, ¬ ("recipe-" ++ p.id = cid)) :
    masterParseResults loads posts (some (line :: lines))
        = masterParseResults loads posts (some lines)
    ∧ xParseResults loads posts (some (line :: lines))
        = xParseResults loads posts (some lines)
    ∧ v15ParseResults loads posts (some (line :: lines))
        = v15ParseResults loads posts (some lines) := by
  have hd : dictFind (postLookup posts) cid = none := by
    apply dictFind_eq_none
    intro e he
    simp only [postLookup, List.mem_map] at he
    obtain ⟨p, hp, he⟩ := he
    subst he
    exact hu p hp
  refine ⟨?_, ?_, ?_⟩
  · by_cases hb : pyBlank line
    · simp [masterParseResults, List.filterMap_cons, masterProcessLine, hb]
    · simp [masterParseResults, List.filterMap_cons, masterProcessLine,
            hb, hl, hc, hd]
  · by_cases hb : pyBlank line
    · simp [xParseResults, List.filterMap_cons, xProcessLine, hb]
    · simp [xParseResults, List.filterMap_cons, xProcessLine, hb, hl, hc, hd]
  · by_cases hb : line = ""
    · simp [v15ParseResults, v15Go, v15ProcessLine, hb]
    · have hbe : (line == "") = false := beq_eq_false_iff_ne.mpr hb
      simp [v15ParseResults, v15Go, v15ProcessLine, hbe, hl, hc, hd]

/-- C3 witness: the line `"unk"` decodes to an envelope with the unknown
correlation id `recipe-99`; all three parsers ignore it. -/
theorem claim_C3_witness :
    masterParseResults sampleLoads [post1] (some ["unk", "good"])
        = masterParseResults sampleLoads [post1] (some ["good"])
    ∧ xParseResults sampleLoads [post1] (some ["unk", "good"])
        = xParseResults sampleLoads [post1] (some ["good"])
    ∧ v15ParseResults sampleLoads [post1] (some ["unk", "good"])
        = v15ParseResults sampleLoads [post1] (some ["good"]) :=
  claim_C3 sampleLoads [post1] "unk" ["good"]
    (.obj [("custom_id", .str "recipe-99")]) "recipe-99" rfl rfl (by decide)

/-- C4 counterexample: for a post whose caption is the single space `" "`,
`create_batch` in `master_recipe_extractor.py` (which skips on
`not caption.strip()`) emits no manifest line, so the number of lines written
is 0 while the number of posts with non-empty caption text is 1 — the claimed
count equality fails. -/
theorem claim_C4_cex :
    ¬ ((masterCreateBatchLines "gpt-4.1" (fun c => c) [postWS]).length
        = ([postWS].filter (fun p => !(p.caption_text == ""))).length) := by
  decide

/-- C4 (amended): in `create_batch` (`master_recipe_extractor.py` /
`recipe_extractor.py`) no manifest line is emitted for an empty caption, every
emitted line corresponds to a post with non-empty caption text, and the number
of lines equals the number of posts whose caption is non-blank after stripping
whitespace — so a whitespace-only caption emits no line despite being
non-empty.  `v1.5`'s `build_tasks_jsonl` emits no manifest line at all: it
unconditionally raises `AttributeError` at the nonexistent
`Recipe.model_json_schema_strict()` before the tasks file is opened. -/
theorem claim_C4 (model : String) (instr : String → String) (posts : List Media) :
    (buildTasksJsonl model instr posts
        = Except.error "AttributeError: model_json_schema_strict")
    ∧ ((masterCreateBatchLines model instr posts).length
        = (posts.filter (fun p => !pyBlank p.caption_text)).length)
    ∧ ((xCreateBatchLines model instr posts).length
        = (posts.filter (fun p => !pyBlank p.caption_text)).length)
    ∧ (∀ l ∈ masterCreateBatchLines model instr posts,
        ∃ p ∈ posts, l.custom_id = "recipe-" ++ p.id ∧ ¬ (p.caption_text = ""))
    ∧ (∀ l ∈ xCreateBatchLines model instr posts,
        ∃ p ∈ posts, l.custom_id = "recipe-" ++ p.id ∧ ¬ (p.caption_text = "")) := by
  refine ⟨rfl, masterCreateBatchLines_length model instr posts,
          xCreateBatchLines_length model instr posts, ?_, ?_⟩
  · intro l hl
    obtain ⟨p, hp, hid, hb⟩ := masterCreateBatchLines_mem model instr posts l hl
    refine ⟨p, hp, hid, ?_⟩
    intro he
    rw [he] at hb
    simp [pyBlank] at hb
  · intro l hl
    obtain ⟨p, hp, hid, hb⟩ := xCreateBatchLines_mem model instr posts l hl
    refine ⟨p, hp, hid, ?_⟩
    intro he
    rw [he] at hb
    simp [pyBlank] at hb

/-- C4 witness: the amended theorem at a concrete post list with one non-blank
and one whitespace-only caption. -/
theorem claim_C4_witness :
    (buildTasksJsonl "m" (fun c => c) [post1, postWS]
        = Except.error "AttributeError: model_json_schema_strict")
    ∧ ((masterCreateBatchLines "m" (fun c => c) [post1, postWS]).length
        = ([post1, postWS].filter (fun p => !pyBlank p.caption_text)).length) :=
  ⟨(claim_C4 "m" (fun c => c) [post1, postWS]).1,
   (claim_C4 "m" (fun c => c) [post1, postWS]).2.1⟩

/-- C5: for pairwise-distinct post ids the correlation ids
`recipe-{post.id}` emitted by `create_batch` are pairwise distinct, and the
lookup key that `parse_results` builds for a post is exactly that same string:
the dictionary `{f"recipe-{post.id}": post}` maps `recipe-{p.id}` back to `p`. -/
theorem claim_C5 (model : String) (instr : String → String) (posts : List Media)
    (h : (posts.map Media.id).Nodup) :
    ((masterCreateBatchLines model instr posts).map TaskLine.custom_id).Nodup
    ∧ ∀ p ∈ posts, dictFind (postLookup posts) ("recipe-" ++ p.id) = some p := by
  constructor
  · have hn : (posts.map (fun p => "recipe-" ++ p.id)).Nodup := by
      have hmm : posts.map (fun p => "recipe-" ++ p.id)
          = (posts.map Media.id).map (fun s => "recipe-" ++ s) := by
        simp [List.map_map, Function.comp]
      rw [hmm]
      exact h.map recipeId_inj
    exact hn.sublist (masterCreateBatchLines_ids_sublist model instr posts)
  · intro p hp
    exact postLookup_dictFind posts p h hp

/-- C5 witness: the theorem applied to two posts with distinct ids. -/
theorem claim_C5_witness :
    dictFind (postLookup [post1, postWS]) ("recipe-" ++ post1.id) = some post1 :=
  (claim_C5 "m" (fun c => c) [post1, postWS] (by decide)).2 post1 (by simp)

/-- C6 counterexample: on a `failed` (resp. `cancelled`) batch the polling
loops `MasterRecipeExtractor.wait_for_batch` and v1.5
`RecipeExtractor.wait_for_batch` return the batch object as a normal value —
their bodies contain no `raise` — instead of propagating an exception as the
claim states. -/
theorem claim_C6_cex :
    masterWaitForBatch [⟨"failed"⟩] = some ⟨"failed"⟩
    ∧ v15WaitForBatch [⟨"cancelled"⟩] = some ⟨"cancelled"⟩ := ⟨rfl, rfl⟩

/-- C6 (amended): only `EnhancedRecipeAnalyzer._poll_batch_completion`
(`v1.5/analyzer.py`) propagates a terminal failure state as a raised
exception; the two `wait_for_batch` polling loops return the batch normally
in `failed`/`expired`/`cancelled` states and their callers must inspect the
status themselves. -/
theorem claim_C6 {α : Type} (s : String) (res : α) (rest : List (String × α))
    (snaps : List BatchSnap) (h : s ∈ ["failed", "expired", "cancelled"]) :
    pollBatchCompletion ((s, res) :: rest)
        = some (Except.error ("Batch processing failed: " ++ s))
    ∧ masterWaitForBatch (⟨s⟩ :: snaps) = some ⟨s⟩
    ∧ v15WaitForBatch (⟨s⟩ :: snaps) = some ⟨s⟩ := by
  simp only [List.mem_cons, List.not_mem_nil, or_false] at h
  rcases h with rfl | rfl | rfl <;> exact ⟨rfl, rfl, rfl⟩

/-- C6 witness: the amended theorem at the `failed` status. -/
theorem claim_C6_witness :
    pollBatchCompletion [("failed", 0)]
        = some (Except.error ("Batch processing failed: " ++ "failed"))
    ∧ masterWaitForBatch [⟨"failed"⟩] = some ⟨"failed"⟩
    ∧ v15WaitForBatch [⟨"failed"⟩] = some ⟨"failed"⟩ :=
  claim_C6 "failed" 0 [] [] (by decide)

/-- C7: every record accepted by `parse_results` equals, field by field, the
structured payload decoded from its line's nested response text: for the
master extractor the record is `Recipe(**recipe_data)` and all 26
classification fields coincide with the payload entries; for
`recipe_extractor.py` the 26 classification fields likewise coincide with the
payload entries (the remaining fields come from the post, not the payload). -/
theorem claim_C7 (loads : String → Option Jval) (lookup : List (String × Media))
    (line : String) :
    (∀ r : MRecipe, masterProcessLine loads lookup line = some r →
      ∃ result t payload, loads line = some result
        ∧ extractOutputText result = some t
        ∧ loads t = some payload
        ∧ validateRecipeM payload = some r
        ∧ payloadFieldsEqM payload r)
    ∧ (∀ r : XRecipe, xProcessLine loads lookup line = some r →
      ∃ result t payload, loads line = some result
        ∧ extractOutputText result = some t
        ∧ loads t = some payload
        ∧ payloadFieldsEqX payload r) := by
  constructor
  · intro r h
    unfold masterProcessLine at h
    split at h
    · cases h
    · split at h
      · cases h
      · rename_i result hE
        split at h
        · cases h
        · rename_i cidJ hc
          split at h
          · rename_i cid
            split at h
            · cases h
            · rw [Option.bind_eq_some] at h
              obtain ⟨t, ht, hpv⟩ := h
              rw [Option.bind_eq_some] at hpv
              obtain ⟨payload, hp, hv⟩ := hpv
              exact ⟨result, t, payload, hE, ht, hp, hv,
                     validateRecipeM_fields payload r hv⟩
          · cases h
  · intro r h
    unfold xProcessLine at h
    split at h
    · cases h
    · split at h
      · cases h
      · rename_i result hE
        split at h
        · cases h
        · rename_i cidJ hc
          split at h
          · rename_i cid
            split at h
            · cases h
            · rename_i post hpost
              rw [Option.bind_eq_some] at h
              obtain ⟨t, ht, hpv⟩ := h
              rw [Option.bind_eq_some] at hpv
              obtain ⟨payload, hp, hv⟩ := hpv
              exact ⟨result, t, payload, hE, ht, hp,
                     xRecordFromPayload_fields post payload r hv⟩
          · cases h

/-- C7 witness: the theorem applied to the concrete accepted line `"good"`,
whose payload is `samplePayloadM` and whose record is `sampleRecipeM`. -/
theorem claim_C7_witness :
    ∃ result t payload, sampleLoads "good" = some result
      ∧ extractOutputText result = some t
      ∧ sampleLoads t = some payload
      ∧ validateRecipeM payload = some sampleRecipeM
      ∧ payloadFieldsEqM payload sampleRecipeM :=
  (claim_C7 sampleLoads (postLookup [post1]) "good").1 sampleRecipeM rfl

lemma append_posts_spec (c : Collection) (posts : List Media) (c1 : Collection)
    (h : c.append_posts posts = some c1) :
    c1.post_pks = c.post_pks ++ posts.map (fun p => p.pk)
    ∧ c1.name = c.name ∧ c1.type = c.type ∧ c1.media_count = c.media_count := by
  unfold Collection.append_posts at h
  cases hg : posts.getLast? with
  | none =>
    rw [hg] at h
    have hc := Option.some.inj h
    subst hc
    exact ⟨rfl, rfl, rfl, rfl⟩
  | some lastP =>
    rw [hg] at h
    rw [Option.map_eq_some'] at h
    obtain ⟨n, hn, hc⟩ := h
    subst hc
    exact ⟨rfl, rfl, rfl, rfl⟩

/-- C8: the code cannot deliver the claimed one-record-per-post behaviour.
The placeholder construction `Recipe(post_id=..., code=..., caption=...,
title="", is_recipe=False, confidence_score=0.0, analysis_notes=...)` in the
exception handler of `analyze_posts_batch` always fails pydantic validation,
because `foodiegram.types.Recipe` has no `is_recipe`/`confidence_score`
fields and requires `ingredients`, `instructions`, `cuisine_type`, … which
are not passed; hence for any post whose analysis raises, the handler itself
raises `ValidationError` and `analyze_posts_batch` propagates it instead of
returning a list with a placeholder entry. -/
theorem claim_C8 :
    (∀ (post : Media) (e : String),
        recipeXFromKwargs (placeholderKwargs post e) = none)
    ∧ analyzePostsBatch (fun _ => Except.error "boom") [post1]
        = Except.error "ValidationError: missing required fields" := by
  constructor
  · intro post e
    have hing : kwFind (placeholderKwargs post e) "ingredients" = none := by
      simp [kwFind, placeholderKwargs, List.find?_cons]
    have hgl : kwStrList (placeholderKwargs post e) "ingredients" = none := by
      simp [kwStrList, hing]
    have hcore : readCore (kwStr (placeholderKwargs post e))
        (kwStrList (placeholderKwargs post e)) = none := by
      cases hts : kwStr (placeholderKwargs post e) "title" <;>
        simp [readCore, bind, hts, hgl]
    cases hpost : readXPost (placeholderKwargs post e) <;>
      simp [recipeXFromKwargs, bind, hpost, hcore]
  · rfl

/-- C9: for a collection already in the cache, `save_collection` preserves the
stored `name`, `type` and `media_count` whenever the corresponding argument is
falsy — including `media_count=0`, which Python `or` treats like `None` — and
the stored `post_pks` list is only ever extended, never truncated. -/
theorem claim_C9 (c0 : Collection) (cid : String) (posts : List Media)
    (name type_ : String) (mc : Option Int) (c' : Collection)
    (h : saveCollection (some c0) cid posts name type_ mc = some c') :
    (name = "" → c'.name = c0.name)
    ∧ (type_ = "" → c'.type = c0.type)
    ∧ ((mc = none ∨ mc = some 0) → c'.media_count = c0.media_count)
    ∧ ∃ t, c'.post_pks = c0.post_pks ++ t := by
  unfold saveCollection at h
  rw [Option.map_eq_some'] at h
  obtain ⟨c1, hc1, hc'⟩ := h
  subst hc'
  have base : c1.name = c0.name ∧ c1.type = c0.type
      ∧ c1.media_count = c0.media_count
      ∧ ∃ t, c1.post_pks = c0.post_pks ++ t := by
    by_cases hp : posts.isEmpty
    · rw [if_pos hp] at hc1
      have hc := Option.some.inj hc1
      subst hc
      exact ⟨rfl, rfl, rfl, [], by simp⟩
    · rw [if_neg hp] at hc1
      obtain ⟨hpk, hn, ht, hm⟩ := append_posts_spec c0 posts c1 hc1
      exact ⟨hn, ht, hm, _, hpk⟩
  obtain ⟨bn, bt, bm, t, bpk⟩ := base
  refine ⟨?_, ?_, ?_, t, ?_⟩
  · intro hname
    subst hname
    simpa using bn
  · intro htype
    subst htype
    simpa using bt
  · intro hmc
    rcases hmc with rfl | rfl
    · simpa using bm
    · simpa using bm
  · simpa using bpk

/-- C9 witness: the theorem at a concrete cached collection, with
`name=""`, `type_=""` and `media_count=0`. -/
theorem claim_C9_witness :
    ("" = "" → coll1.name = coll0.name)
    ∧ ("" = "" → coll1.type = coll0.type)
    ∧ (((some 0 : Option Int) = none ∨ (some 0 : Option Int) = some 0)
        → coll1.media_count = coll0.media_count)
    ∧ ∃ t, coll1.post_pks = coll0.post_pks ++ t :=
  claim_C9 coll0 "5" [post1] "" "" (some 0) coll1 rfl

/-- C10: `analyze_extraction_quality` is total — on the empty list both
implementations return the error dictionary `{"error": "No recipes to
analyze"}` instead of raising, and on every non-empty list they return the
statistics report whose divisor `total` equals the (positive) list length, so
no division by zero occurs. -/
theorem claim_C10 :
    analyzeQualityM [] = QualityReport.error "No recipes to analyze"
    ∧ analyzeQualityX [] = QualityReport.error "No recipes to analyze"
    ∧ (∀ rs : List MRecipe, rs ≠ [] →
        ∃ st, analyzeQualityM rs = QualityReport.report st
          ∧ st.total = rs.length ∧ 0 < st.total)
    ∧ (∀ rs : List XRecipe, rs ≠ [] →
        ∃ st, analyzeQualityX rs = QualityReport.report st
          ∧ st.total = rs.length ∧ 0 < st.total) := by
  refine ⟨rfl, rfl, ?_, ?_⟩
  · intro rs h
    have he : ¬ (rs.isEmpty = true) := by simp [List.isEmpty_iff, h]
    exact ⟨_, by unfold analyzeQualityM; rw [if_neg he], rfl,
           List.length_pos.mpr h⟩
  · intro rs h
    have he : ¬ (rs.isEmpty = true) := by simp [List.isEmpty_iff, h]
    exact ⟨_, by unfold analyzeQualityX; rw [if_neg he], rfl,
           List.length_pos.mpr h⟩

/-- C10 witness: the theorem at the empty list and at a concrete singleton
recipe list. -/
theorem claim_C10_witness :
    analyzeQualityM [] = QualityReport.error "No recipes to analyze"
    ∧ ∃ st, analyzeQualityM [sampleRecipeM] = QualityReport.report st
        ∧ st.total = [sampleRecipeM].length ∧ 0 < st.total :=
  ⟨claim_C10.1, claim_C10.2.2.1 [sampleRecipeM] (by simp)⟩
